import Mathlib

/-!
Verification of the Drools-api repository's HTTP layer (`api_drools.py`)
and bootstrap script (`setup_api.py`) against its specification.

The HTTP layer is shallowly embedded: the external `DroolsRAGPipeline`
collaborator (not part of this repository) is abstracted as explicit
parameters — the outcomes of its two auxiliary loaders (`load_form`,
`load_java_model`), its `generate_drools` operation, and its `index` /
`metadata` attributes.  Python exceptions become an explicit `PyError`
sum; FastAPI's `HTTPException` becomes a status/detail record; handler
bodies become pure functions returning `Except`.
-/

/-- Equality on `Except` is decidable when it is on both components. -/
instance {ε α : Type} [DecidableEq ε] [DecidableEq α] :
    DecidableEq (Except ε α) := fun x y =>
  match x, y with
  | .error a, .error b =>
    if h : a = b then .isTrue (by rw [h])
    else .isFalse (fun hh => h (Except.error.inj hh))
  | .ok a, .ok b =>
    if h : a = b then .isTrue (by rw [h])
    else .isFalse (fun hh => h (Except.ok.inj hh))
  | .error _, .ok _ => .isFalse Except.noConfusion
  | .ok _, .error _ => .isFalse Except.noConfusion

/-- Python exceptions relevant to this layer: `FileNotFoundError` (whose
`str` carries the offending path) versus any other `Exception`, each with
its `str(e)` message. -/
inductive PyError where
  | fileNotFound (msg : String)
  | other (msg : String)
deriving DecidableEq

/-- Python `str(e)` for the exceptions modelled by `PyError`. -/
def pyStr : PyError → String
  | .fileNotFound m => m
  | .other m => m

/-- FastAPI `HTTPException(status_code=..., detail=...)`. -/
structure HTTPException where
  status_code : Nat
  detail : String
deriving DecidableEq

/-- A retrieved chunk returned by the pipeline's `generate_drools`
(`Chunk` model in `api_drools.py`): content plus a relevance score.  The
layer under verification never computes with the score, so an integer
stand-in for the float is faithful here. -/
structure Chunk where
  content : String
  score : Int
deriving DecidableEq

/-- The `index` and `metadata` attributes of the external pipeline, as
read by `GET /info`: each may be `None`; metadata entries are abstract. -/
structure DroolsRAGPipeline where
  index : Option Unit
  metadata : Option (List String)
deriving DecidableEq

/-- The validated body of `POST /generate` (`GenerateRequest` in
`api_drools.py`): `query` with `min_length=3`, `k` defaulting to 15 and
bounded to `[1, 50]` by pydantic `Field(ge=1, le=50)`. -/
structure GenerateRequest where
  query : String
  k : Int
deriving DecidableEq

/-- Pydantic validation of a raw `/generate` body, performed by FastAPI
before the handler runs: `k = none` means the field was absent and the
default 15 applies.  Returns `none` exactly when validation fails. -/
def validate_generate_request (query : String) (k : Option Int) :
    Option GenerateRequest :=
  let kv := k.getD 15
  if 3 ≤ query.length ∧ 1 ≤ kv ∧ kv ≤ 50 then some ⟨query, kv⟩ else none

/-- Python ASCII whitespace as removed by `str.strip()` with no
arguments (space, tab, newline, carriage return, vertical tab, form
feed); the strings this service strips are ASCII. -/
def pyIsSpace (c : Char) : Bool :=
  c = ' ' ∨ c = '\t' ∨ c = '\n' ∨ c = '\x0d' ∨ c = '\x0b' ∨ c = '\x0c'

/-- Python `s.strip()`: drop leading and trailing whitespace. -/
def pyStrip (s : String) : String :=
  ⟨((s.data.dropWhile pyIsSpace).reverse.dropWhile pyIsSpace).reverse⟩

/-- Python `pat in s` (substring containment on `str`). -/
def hasSubstr (s pat : String) : Bool :=
  s.data.tails.any (fun t => pat.data.isPrefixOf t)

/-- The wall-clock fields consumed by
`datetime.datetime.now().strftime("%m_%d_%H_%M")`. -/
structure Timestamp where
  month : Nat
  day : Nat
  hour : Nat
  minute : Nat
deriving DecidableEq

/-- The ASCII digit character for `n < 10`. -/
def digitChar (n : Nat) : Char := Char.ofNat (48 + n)

/-- Zero-padded two-digit rendering, as strftime's `%m`/`%d`/`%H`/`%M`
produce for the field ranges `datetime` guarantees (all below 100). -/
def pad2 (n : Nat) : String := ⟨[digitChar (n / 10), digitChar (n % 10)]⟩

/-- `now.strftime("%m_%d_%H_%M")`. -/
def strftime_mm_dd_hh_mm (t : Timestamp) : String :=
  pad2 t.month ++ "_" ++ pad2 t.day ++ "_" ++ pad2 t.hour ++ "_" ++ pad2 t.minute

/-- The attachment filename `f"generated_rule_{timestamp}.drl"`. -/
def drl_filename (t : Timestamp) : String :=
  "generated_rule_" ++ strftime_mm_dd_hh_mm t ++ ".drl"

/-- Decides whether a string matches the full pattern
`generated_rule_\d\d_\d\d_\d\d_\d\d\.drl`. -/
def filenameMatchesPattern (s : String) : Bool :=
  match s.data with
  | 'g' :: 'e' :: 'n' :: 'e' :: 'r' :: 'a' :: 't' :: 'e' :: 'd' :: '_' ::
    'r' :: 'u' :: 'l' :: 'e' :: '_' ::
    d1 :: d2 :: '_' :: d3 :: d4 :: '_' :: d5 :: d6 :: '_' :: d7 :: d8 ::
    '.' :: 'd' :: 'r' :: 'l' :: [] =>
      d1.isDigit && d2.isDigit && d3.isDigit && d4.isDigit &&
      d5.isDigit && d6.isDigit && d7.isDigit && d8.isDigit
  | _ => false

/-- The `fastapi.responses.Response` built by `/generate`: body content,
media type, and the single `Content-Disposition` header. -/
structure FileResponse where
  content : String
  media_type : String
  content_disposition : String
deriving DecidableEq

/-- The `try:` body of `generate_drools_file` up to the generated code:
load the form, load the Java model, call
`pipeline.generate_drools(query, form_content, java_model_content, k)`,
and keep only the code component of its `(drools_code, chunks)` result.
The first raised `PyError` propagates. -/
def generate_body (load_form load_java_model : Except PyError String)
    (generate_drools : String → String → String → Int →
      Except PyError (String × List Chunk))
    (req : GenerateRequest) : Except PyError String := do
  let form_content ← load_form
  let java_model_content ← load_java_model
  let r ← generate_drools req.query form_content java_model_content req.k
  pure r.1

/-- The `except` clauses of `generate_drools_file`: `FileNotFoundError`
maps to 400 with the message embedded, any other exception to 500. -/
def http_exception_of : PyError → HTTPException
  | .fileNotFound m => ⟨400, "Required file not found: " ++ m⟩
  | .other m => ⟨500, "Error generating Drools code: " ++ m⟩

/-- The `POST /generate` handler `generate_drools_file`: 503 when the
global pipeline is unset; otherwise run the body, mapping raised errors
through the two `except` clauses, and on success return the stripped
code as an `application/octet-stream` attachment named from the
timestamp. -/
def generate_drools_file (pipeline : Option DroolsRAGPipeline)
    (load_form load_java_model : Except PyError String)
    (generate_drools : String → String → String → Int →
      Except PyError (String × List Chunk))
    (req : GenerateRequest) (now : Timestamp) :
    Except HTTPException FileResponse :=
  match pipeline with
  | none => .error ⟨503, "Pipeline not initialized. Check server logs."⟩
  | some _ =>
    match generate_body load_form load_java_model generate_drools req with
    | .error e => .error (http_exception_of e)
    | .ok drools_code =>
      let clean_code := pyStrip drools_code
      let filename := drl_filename now
      .ok ⟨clean_code, "application/octet-stream",
           "attachment; filename=" ++ filename⟩

/-- Result of a request as seen by the client: FastAPI rejects an invalid
body with a 422 validation response before the handler runs; otherwise
the handler's `HTTPException` or success value is returned. -/
inductive EndpointResult (α : Type) where
  | validationError (status_code : Nat)
  | httpError (e : HTTPException)
  | ok (a : α)
deriving DecidableEq

/-- The full `POST /generate` request path: pydantic validation (422 on
failure, before any handler code runs), then `generate_drools_file`. -/
def generate_endpoint (pipeline : Option DroolsRAGPipeline)
    (load_form load_java_model : Except PyError String)
    (generate_drools : String → String → String → Int →
      Except PyError (String × List Chunk))
    (query : String) (k : Option Int) (now : Timestamp) :
    EndpointResult FileResponse :=
  match validate_generate_request query k with
  | none => .validationError 422
  | some req =>
    match generate_drools_file pipeline load_form load_java_model
        generate_drools req now with
    | .error e => .httpError e
    | .ok r => .ok r

/-- Python truthiness of the optional `metadata` list: `None` and the
empty list are falsy. -/
def pyTruthy : Option (List String) → Bool
  | none => false
  | some l => !l.isEmpty

/-- The JSON object returned by `GET /info`. -/
structure InfoResponse where
  form_loaded : Bool
  form_size : Nat
  java_model_loaded : Bool
  java_model_size : Nat
  faiss_index_loaded : Bool
  metadata_loaded : Bool
  metadata_entries : Nat
deriving DecidableEq

/-- The `GET /info` handler `get_info`: 503 when the pipeline is unset;
otherwise load both auxiliary contents (any raised exception maps to 500
with `str(e)`), test each for its "not found" sentinel substring, and
report sizes, `index`/`metadata` presence, and
`len(pipeline.metadata) if pipeline.metadata else 0`. -/
def get_info (pipeline : Option DroolsRAGPipeline)
    (load_form load_java_model : Except PyError String) :
    Except HTTPException InfoResponse :=
  match pipeline with
  | none => .error ⟨503, "Pipeline not initialized"⟩
  | some p =>
    match load_form, load_java_model with
    | .ok form_content, .ok java_model_content =>
      .ok { form_loaded := !hasSubstr form_content "Form content not found"
            form_size := form_content.length
            java_model_loaded :=
              !hasSubstr java_model_content "Java model file not found"
            java_model_size := java_model_content.length
            faiss_index_loaded := p.index.isSome
            metadata_loaded := p.metadata.isSome
            metadata_entries :=
              if pyTruthy p.metadata then (p.metadata.getD []).length else 0 }
    | .error e, _ => .error ⟨500, pyStr e⟩
    | .ok _, .error e => .error ⟨500, pyStr e⟩

/-!
Embedding of `setup_api.py`.  File-system effects are abstracted to the
existence flags the script actually tests; external process invocations
(`run_command`) are driven by an oracle `σ : Cmd → Option Nat` giving
the non-zero exit status of a command, or `none` on success.
-/

/-- The external commands `setup_api.py` passes to `run_command`. -/
inductive Cmd where
  | gitVersion
  | gitClone
  | pipUpgrade
  | pipInstall
deriving DecidableEq

/-- The argv of each external command, space-joined. -/
def cmdArgv : Cmd → String
  | .gitVersion => "git --version"
  | .gitClone => "git clone https://github.com/Lakshya-serigor/Drools-api.git"
  | .pipUpgrade => "python -m pip install --upgrade pip"
  | .pipInstall => "python -m pip install -r requirements.txt"

/-- Observable effects of a script run, in order: external commands plus
the non-command side effects (venv creation, file writes). -/
inductive Eff where
  | cmd (c : Cmd)
  | venvCreate
  | reqWrite
  | envWrite
  | scriptWrite
deriving DecidableEq

/-- The on-disk state the script's existence checks consult. -/
structure FS where
  project_dir_exists : Bool
  venv_exists : Bool
  requirements_exists : Bool
  env_file_exists : Bool
deriving DecidableEq

/-- `sys.exit(1)` carrying the printed message and the file system at
the moment of exit (nothing is rolled back). -/
structure ScriptExit where
  code : Nat
  msg : String
  fs : FS
deriving DecidableEq

/-- The text `subprocess.CalledProcessError` renders when a command
exits with non-zero status `rc`. -/
def cmdFailureText (c : Cmd) (rc : Nat) : String :=
  "Command " ++ cmdArgv c ++ " returned non-zero exit status " ++
    toString rc ++ "."

/-- `run_command` under exit oracle `σ`: `none` means the command
succeeded; otherwise `sys.exit(1)` after printing the error. -/
def run_command (σ : Cmd → Option Nat) (c : Cmd) : Option (Nat × String) :=
  match σ c with
  | none => none
  | some rc => some (1, "Error: " ++ cmdFailureText c rc)

/-- One traced step: run the rest only when the first part succeeds,
concatenating effect traces. -/
def seqStep (a b : FS → List Eff × Except ScriptExit FS) (fs : FS) :
    List Eff × Except ScriptExit FS :=
  match a fs with
  | (t, .error e) => (t, .error e)
  | (t, .ok fs1) =>
    match b fs1 with
    | (t2, r) => (t ++ t2, r)

/-- Step 1 of `main`: `run_command(["git", "--version"])`. -/
def check_git (σ : Cmd → Option Nat) (fs : FS) :
    List Eff × Except ScriptExit FS :=
  match run_command σ .gitVersion with
  | some (code, msg) => ([.cmd .gitVersion], .error ⟨code, msg, fs⟩)
  | none => ([.cmd .gitVersion], .ok fs)

/-- `clone_repository`: skip when the project directory exists,
otherwise `git clone`. -/
def clone_repository (σ : Cmd → Option Nat) (fs : FS) :
    List Eff × Except ScriptExit FS :=
  if fs.project_dir_exists then ([], .ok fs)
  else
    match run_command σ .gitClone with
    | some (code, msg) => ([.cmd .gitClone], .error ⟨code, msg, fs⟩)
    | none => ([.cmd .gitClone], .ok { fs with project_dir_exists := true })

/-- `create_virtual_environment`: skip when `venv/` exists, otherwise
`venv.create` (a library call, not an external command). -/
def create_virtual_environment (fs : FS) :
    List Eff × Except ScriptExit FS :=
  if fs.venv_exists then ([], .ok fs)
  else ([.venvCreate], .ok { fs with venv_exists := true })

/-- `install_requirements`: write `requirements.txt` only when absent,
then always run the pip upgrade and pip install commands. -/
def install_requirements (σ : Cmd → Option Nat) (fs : FS) :
    List Eff × Except ScriptExit FS :=
  let (t0, fs0) :=
    if fs.requirements_exists then (([] : List Eff), fs)
    else ([Eff.reqWrite], { fs with requirements_exists := true })
  match run_command σ .pipUpgrade with
  | some (code, msg) => (t0 ++ [.cmd .pipUpgrade], .error ⟨code, msg, fs0⟩)
  | none =>
    match run_command σ .pipInstall with
    | some (code, msg) =>
        (t0 ++ [.cmd .pipUpgrade, .cmd .pipInstall], .error ⟨code, msg, fs0⟩)
    | none =>
        (t0 ++ [.cmd .pipUpgrade, .cmd .pipInstall], .ok fs0)

/-- `create_env_file`: skip when `.env` exists, otherwise write it. -/
def create_env_file (fs : FS) : List Eff × Except ScriptExit FS :=
  if fs.env_file_exists then ([], .ok fs)
  else ([.envWrite], .ok { fs with env_file_exists := true })

/-- The `create_run_script` step of `main`: the launch script is written
unconditionally on every run. -/
def create_run_script_step (fs : FS) : List Eff × Except ScriptExit FS :=
  ([.scriptWrite], .ok fs)

/-- The whole of `main` in `setup_api.py`: git check, clone, venv,
install, `.env`, launch script, in sequence, aborting at the first
failed external command. -/
def main_exec (σ : Cmd → Option Nat) : FS → List Eff × Except ScriptExit FS :=
  seqStep (check_git σ)
    (seqStep (clone_repository σ)
      (seqStep create_virtual_environment
        (seqStep (install_requirements σ)
          (seqStep create_env_file create_run_script_step))))

/-- The oracle under which every external command succeeds. -/
def allOk : Cmd → Option Nat := fun _ => none

/-- A fresh machine: nothing exists yet. -/
def fs_fresh : FS := ⟨false, false, false, false⟩

/-- The content `create_run_script` writes on Windows.  In the Python
source the batch text is a non-raw string, so the `\a` of
`\activate.bat` is a BEL escape: the written line is
`call venv\Scripts<BEL>ctivate.bat`. -/
def windows_script_content : String :=
  "@echo off\ncall venv\\Scripts\x07ctivate.bat\necho Starting Drools API...\nuvicorn api_drools:app --host 0.0.0.0 --port 8503 --reload\n"

/-- The content `create_run_script` writes on POSIX: note it launches
the module `api_main`, not this repository's service module. -/
def posix_script_content : String :=
  "#!/bin/bash\nsource venv/bin/activate\necho \"Starting Drools API...\"\nuvicorn api_main:app --host 0.0.0.0 --port 8503 --reload\n"

/-- The launch script as written: name, content, and whether the script
was marked executable (`chmod 0o755`, POSIX only). -/
structure RunScript where
  name : String
  script_content : String
  made_executable : Bool
deriving DecidableEq

/-- `create_run_script`: pick the platform variant by `os.name == "nt"`,
write it, and `chmod 0o755` only on POSIX. -/
def create_run_script (os_is_nt : Bool) : RunScript :=
  if os_is_nt then ⟨"run_api.bat", windows_script_content, false⟩
  else ⟨"run_api.sh", posix_script_content, true⟩

/-- The module that holds this repository's HTTP service: `api_drools.py`
defines `app` and serves it on port 8503 under `__main__`. -/
def api_service_module : String := "api_drools"

/-!  Helper lemmas and sample inputs shared by the claim theorems. -/

/-- Sample pipeline attributes used to instantiate universally
quantified theorems. -/
def sample_pipeline : DroolsRAGPipeline := ⟨some (), some ["entry1"]⟩

/-- A sample `generate_drools` outcome: generated text with surrounding
whitespace, plus one retrieved chunk. -/
def sample_gen : String → String → String → Int →
    Except PyError (String × List Chunk) :=
  fun _ _ _ _ => .ok ("  rule X end  ", [⟨"chunk", 1⟩])

/-- A sample wall-clock instant: Jan 2, 03:04. -/
def sample_ts : Timestamp := ⟨1, 2, 3, 4⟩

/-- `digitChar` of a value below ten is an ASCII digit. -/
theorem digitChar_isDigit {n : Nat} (h : n < 10) :
    (digitChar n).isDigit = true := by
  interval_cases n <;> decide

/-- The timestamped filename always matches
`generated_rule_\d\d_\d\d_\d\d_\d\d\.drl` when every field is below 100
(as `datetime` guarantees). -/
theorem drl_filename_matches (t : Timestamp)
    (hm : t.month ≤ 99) (hd : t.day ≤ 99)
    (hh : t.hour ≤ 99) (hmi : t.minute ≤ 99) :
    filenameMatchesPattern (drl_filename t) = true := by
  obtain ⟨m, d, h, mi⟩ := t
  have hm2 : m ≤ 99 := hm
  have hd2 : d ≤ 99 := hd
  have hh2 : h ≤ 99 := hh
  have hmi2 : mi ≤ 99 := hmi
  have hred : filenameMatchesPattern (drl_filename ⟨m, d, h, mi⟩) =
      ((digitChar (m / 10)).isDigit && (digitChar (m % 10)).isDigit &&
       (digitChar (d / 10)).isDigit && (digitChar (d % 10)).isDigit &&
       (digitChar (h / 10)).isDigit && (digitChar (h % 10)).isDigit &&
       (digitChar (mi / 10)).isDigit && (digitChar (mi % 10)).isDigit) := rfl
  rw [hred]
  rw [digitChar_isDigit (by omega : m / 10 < 10),
      digitChar_isDigit (by omega : m % 10 < 10),
      digitChar_isDigit (by omega : d / 10 < 10),
      digitChar_isDigit (by omega : d % 10 < 10),
      digitChar_isDigit (by omega : h / 10 < 10),
      digitChar_isDigit (by omega : h % 10 < 10),
      digitChar_isDigit (by omega : mi / 10 < 10),
      digitChar_isDigit (by omega : mi % 10 < 10)]
  rfl

/-- C1: with the global pipeline unset, `POST /generate` and `GET /info`
each return the 503 "not ready" condition, and the result does not
depend on the auxiliary loaders or the generation operation — no
pipeline call is performed. -/
theorem c1_pipeline_unset_returns_503 :
    (∀ load_form load_java_model generate_drools req now,
      generate_drools_file none load_form load_java_model generate_drools
          req now =
        .error ⟨503, "Pipeline not initialized. Check server logs."⟩) ∧
    (∀ load_form load_java_model,
      get_info none load_form load_java_model =
        .error ⟨503, "Pipeline not initialized"⟩) :=
  ⟨fun _ _ _ _ _ => rfl, fun _ _ => rfl⟩

/-- C2: a `/generate` body whose query is shorter than 3 characters or
whose `k` (defaulting to 15 when absent) lies outside `[1, 50]` is
rejected with the 422 validation failure before any handler or pipeline
code runs (the result is the same for every pipeline and loader);
otherwise validation passes and yields the request unchanged. -/
theorem c2_validation_gate :
    (∀ query k pipeline load_form load_java_model generate_drools now,
      (query.length < 3 ∨ k.getD 15 < 1 ∨ 50 < k.getD 15) →
      generate_endpoint pipeline load_form load_java_model generate_drools
          query k now = .validationError 422) ∧
    (∀ query k, 3 ≤ query.length → 1 ≤ k.getD 15 → k.getD 15 ≤ 50 →
      validate_generate_request query k = some ⟨query, k.getD 15⟩) := by
  constructor
  · intro query k pipeline load_form load_java_model generate_drools now hbad
    have hval : validate_generate_request query k = none := by
      simp only [validate_generate_request]
      rw [if_neg]
      omega
    unfold generate_endpoint
    rw [hval]
  · intro query k h1 h2 h3
    unfold validate_generate_request
    rw [if_pos ⟨h1, h2, h3⟩]

/-- Witness for C2 at concrete inputs: query `"ab"` is rejected with
422; query `"abc"` with `k` absent validates to `k = 15`. -/
theorem c2_validation_gate_witness :
    generate_endpoint (some sample_pipeline) (.ok "form") (.ok "java")
        sample_gen "ab" none sample_ts = .validationError 422 ∧
    validate_generate_request "abc" none = some ⟨"abc", 15⟩ :=
  ⟨c2_validation_gate.1 "ab" none (some sample_pipeline) (.ok "form")
      (.ok "java") sample_gen sample_ts (by decide),
   c2_validation_gate.2 "abc" none (by decide) (by decide) (by decide)⟩

/-- A string always contains its own suffix as a substring. -/
theorem hasSubstr_append_left (x m : String) : hasSubstr (x ++ m) m = true := by
  unfold hasSubstr
  rw [String.data_append, List.any_eq_true]
  refine ⟨m.data, (List.mem_tails m.data (x.data ++ m.data)).mpr
    (List.suffix_append x.data m.data), ?_⟩
  induction m.data with
  | nil => rfl
  | cons a l ih => simp [List.isPrefixOf, ih]

/-- C3: every successful `/generate` response carries the pipeline's
generated text stripped of leading and trailing whitespace as its body,
the `application/octet-stream` media type, and a
`Content-Disposition: attachment` filename matching
`generated_rule_\d\d_\d\d_\d\d_\d\d\.drl`, for any valid wall-clock
instant. -/
theorem c3_success_attachment (p : DroolsRAGPipeline)
    (form_content java_model_content generated : String) (chunks : List Chunk)
    (generate_drools : String → String → String → Int →
      Except PyError (String × List Chunk))
    (req : GenerateRequest) (now : Timestamp) (r : FileResponse)
    (hm : now.month ≤ 12) (hd : now.day ≤ 31)
    (hh : now.hour ≤ 23) (hmi : now.minute ≤ 59)
    (hgen : generate_drools req.query form_content java_model_content req.k =
      .ok (generated, chunks))
    (hrun : generate_drools_file (some p) (.ok form_content)
      (.ok java_model_content) generate_drools req now = .ok r) :
    r.content = pyStrip generated ∧
    r.media_type = "application/octet-stream" ∧
    r.content_disposition = "attachment; filename=" ++ drl_filename now ∧
    filenameMatchesPattern (drl_filename now) = true := by
  have hbody : generate_body (.ok form_content) (.ok java_model_content)
      generate_drools req = .ok generated := by
    have h1 : generate_body (.ok form_content) (.ok java_model_content)
        generate_drools req =
        Except.bind
          (generate_drools req.query form_content java_model_content req.k)
          (fun r => Except.pure r.1) := rfl
    rw [h1, hgen]
    rfl
  have hres : generate_drools_file (some p) (.ok form_content)
      (.ok java_model_content) generate_drools req now =
      .ok ⟨pyStrip generated, "application/octet-stream",
           "attachment; filename=" ++ drl_filename now⟩ := by
    unfold generate_drools_file
    rw [hbody]
  rw [hres] at hrun
  injection hrun with h
  subst h
  exact ⟨rfl, rfl, rfl,
    drl_filename_matches now (by omega) (by omega) (by omega) (by omega)⟩

/-- Witness for C3: a pipeline returning `"  rule X end  "` yields body
exactly `"rule X end"` with the timestamped attachment filename. -/
theorem c3_success_attachment_witness :
    (FileResponse.mk "rule X end" "application/octet-stream"
        ("attachment; filename=" ++ drl_filename sample_ts)).content =
      pyStrip "  rule X end  " ∧
    (FileResponse.mk "rule X end" "application/octet-stream"
        ("attachment; filename=" ++ drl_filename sample_ts)).media_type =
      "application/octet-stream" ∧
    (FileResponse.mk "rule X end" "application/octet-stream"
        ("attachment; filename=" ++ drl_filename sample_ts)).content_disposition =
      "attachment; filename=" ++ drl_filename sample_ts ∧
    filenameMatchesPattern (drl_filename sample_ts) = true :=
  c3_success_attachment sample_pipeline "form" "java" "  rule X end  "
    [⟨"chunk", 1⟩] sample_gen ⟨"make a rule", 15⟩ sample_ts
    ⟨"rule X end", "application/octet-stream",
     "attachment; filename=" ++ drl_filename sample_ts⟩
    (by decide) (by decide) (by decide) (by decide) (by decide) (by decide)

/-- C4: when both auxiliary loads return text containing their "not
found" sentinel, `/info` reports `form_loaded = false` and
`java_model_loaded = false` (even though the strings are non-empty), and
reports both sizes, the presence of the vector index and of the
metadata, and a metadata entry count that is 0 when metadata is
absent. -/
theorem c4_info_sentinel (p : DroolsRAGPipeline)
    (form_content java_model_content : String) (i : InfoResponse)
    (hf : hasSubstr form_content "Form content not found" = true)
    (hj : hasSubstr java_model_content "Java model file not found" = true)
    (hrun : get_info (some p) (.ok form_content) (.ok java_model_content) =
      .ok i) :
    i.form_loaded = false ∧ i.java_model_loaded = false ∧
    i.form_size = form_content.length ∧
    i.java_model_size = java_model_content.length ∧
    i.faiss_index_loaded = p.index.isSome ∧
    i.metadata_loaded = p.metadata.isSome ∧
    (p.metadata = none → i.metadata_entries = 0) := by
  simp only [get_info] at hrun
  injection hrun with h
  subst h
  refine ⟨by simp [hf], by simp [hj], rfl, rfl, rfl, rfl, ?_⟩
  intro hnone
  simp [hnone, pyTruthy]

/-- Witness for C4: the exact sentinel strings (both non-empty) with an
empty pipeline make `/info` report nothing as loaded. -/
theorem c4_info_sentinel_witness :
    (InfoResponse.mk false ("Form content not found" : String).length false
        ("Java model file not found" : String).length false false
        0).form_loaded = false ∧
    (InfoResponse.mk false ("Form content not found" : String).length false
        ("Java model file not found" : String).length false false
        0).java_model_loaded = false ∧
    (InfoResponse.mk false ("Form content not found" : String).length false
        ("Java model file not found" : String).length false false
        0).form_size = ("Form content not found" : String).length ∧
    (InfoResponse.mk false ("Form content not found" : String).length false
        ("Java model file not found" : String).length false false
        0).java_model_size = ("Java model file not found" : String).length ∧
    (InfoResponse.mk false ("Form content not found" : String).length false
        ("Java model file not found" : String).length false false
        0).faiss_index_loaded = (DroolsRAGPipeline.mk none none).index.isSome ∧
    (InfoResponse.mk false ("Form content not found" : String).length false
        ("Java model file not found" : String).length false false
        0).metadata_loaded = (DroolsRAGPipeline.mk none none).metadata.isSome ∧
    ((DroolsRAGPipeline.mk none none).metadata = none →
      (InfoResponse.mk false ("Form content not found" : String).length false
        ("Java model file not found" : String).length false false
        0).metadata_entries = 0) :=
  c4_info_sentinel ⟨none, none⟩ "Form content not found"
    "Java model file not found"
    ⟨false, ("Form content not found" : String).length, false,
     ("Java model file not found" : String).length, false, false, 0⟩
    (by decide) (by decide) (by decide)

/-- C5: with the pipeline set, a `FileNotFoundError` raised by a loader
or the pipeline makes `/generate` answer 400 with the exception text
(which carries the offending path) embedded in the detail, and any
other exception makes it answer 500 with the underlying message
embedded; the single returned error is the whole response — no retry,
no partial result. -/
theorem c5_error_mapping (p : DroolsRAGPipeline)
    (load_form load_java_model : Except PyError String)
    (generate_drools : String → String → String → Int →
      Except PyError (String × List Chunk))
    (req : GenerateRequest) (now : Timestamp) :
    (∀ path, generate_body load_form load_java_model generate_drools req =
        .error (.fileNotFound path) →
      generate_drools_file (some p) load_form load_java_model
          generate_drools req now =
        .error ⟨400, "Required file not found: " ++ path⟩ ∧
      hasSubstr ("Required file not found: " ++ path) path = true) ∧
    (∀ msg, generate_body load_form load_java_model generate_drools req =
        .error (.other msg) →
      generate_drools_file (some p) load_form load_java_model
          generate_drools req now =
        .error ⟨500, "Error generating Drools code: " ++ msg⟩ ∧
      hasSubstr ("Error generating Drools code: " ++ msg) msg = true) := by
  constructor
  · intro path hbody
    refine ⟨?_, hasSubstr_append_left _ _⟩
    unfold generate_drools_file
    rw [hbody]
    rfl
  · intro msg hbody
    refine ⟨?_, hasSubstr_append_left _ _⟩
    unfold generate_drools_file
    rw [hbody]
    rfl

/-- Witness for C5: a missing form file surfaces as 400 with the path in
the detail; a generic pipeline failure surfaces as 500 with its
message. -/
theorem c5_error_mapping_witness :
    (generate_drools_file (some sample_pipeline)
        (.error (.fileNotFound "form_structure.txt")) (.ok "java")
        sample_gen ⟨"make a rule", 15⟩ sample_ts =
      .error ⟨400, "Required file not found: " ++ "form_structure.txt"⟩ ∧
     hasSubstr ("Required file not found: " ++ "form_structure.txt")
        "form_structure.txt" = true) ∧
    (generate_drools_file (some sample_pipeline) (.ok "form") (.ok "java")
        (fun _ _ _ _ => .error (.other "LLM call failed"))
        ⟨"make a rule", 15⟩ sample_ts =
      .error ⟨500, "Error generating Drools code: " ++ "LLM call failed"⟩ ∧
     hasSubstr ("Error generating Drools code: " ++ "LLM call failed")
        "LLM call failed" = true) :=
  ⟨(c5_error_mapping sample_pipeline (.error (.fileNotFound "form_structure.txt"))
      (.ok "java") sample_gen ⟨"make a rule", 15⟩ sample_ts).1
      "form_structure.txt" (by decide),
   (c5_error_mapping sample_pipeline (.ok "form") (.ok "java")
      (fun _ _ _ _ => .error (.other "LLM call failed"))
      ⟨"make a rule", 15⟩ sample_ts).2 "LLM call failed" (by rfl)⟩

/-- C9: the relevance-scored chunks the pipeline returns are discarded
by `/generate`: two generation operations whose generated text always
agrees produce identical responses whatever their chunks (so no chunk
content or score reaches the response), and a successful response's
whole payload is exactly the trimmed generated code with its attachment
headers. -/
theorem c9_chunks_discarded :
    (∀ pipeline load_form load_java_model g1 g2 req now,
      (∀ q f j kk, (g1 q f j kk).map Prod.fst = (g2 q f j kk).map Prod.fst) →
      generate_drools_file pipeline load_form load_java_model g1 req now =
      generate_drools_file pipeline load_form load_java_model g2 req now) ∧
    (∀ p form_content java_model_content code chunks req now,
      generate_drools_file (some p) (.ok form_content)
          (.ok java_model_content) (fun _ _ _ _ => .ok (code, chunks))
          req now =
        .ok ⟨pyStrip code, "application/octet-stream",
             "attachment; filename=" ++ drl_filename now⟩) := by
  constructor
  · intro pipeline load_form load_java_model g1 g2 req now hsame
    cases pipeline with
    | none => rfl
    | some p =>
      have hbody : generate_body load_form load_java_model g1 req =
          generate_body load_form load_java_model g2 req := by
        cases load_form with
        | error e => rfl
        | ok f =>
          cases load_java_model with
          | error e => rfl
          | ok j =>
            have hb1 : generate_body (.ok f) (.ok j) g1 req =
                Except.bind (g1 req.query f j req.k)
                  (fun r => Except.pure r.1) := rfl
            have hb2 : generate_body (.ok f) (.ok j) g2 req =
                Except.bind (g2 req.query f j req.k)
                  (fun r => Except.pure r.1) := rfl
            rw [hb1, hb2]
            have h := hsame req.query f j req.k
            cases h1 : g1 req.query f j req.k with
            | error e1 =>
              cases h2 : g2 req.query f j req.k with
              | error e2 =>
                rw [h1, h2] at h
                simp only [Except.map] at h
                injection h with he
                rw [he]
              | ok v2 =>
                rw [h1, h2] at h
                simp only [Except.map] at h
                exact absurd h (by simp)
            | ok v1 =>
              cases h2 : g2 req.query f j req.k with
              | error e2 =>
                rw [h1, h2] at h
                simp only [Except.map] at h
                exact absurd h (by simp)
              | ok v2 =>
                rw [h1, h2] at h
                simp only [Except.map] at h
                injection h with he
                simp only [Except.bind, Except.pure]
                rw [he]
      unfold generate_drools_file
      rw [hbody]
  · intro p form_content java_model_content code chunks req now
    rfl

/-- Witness for C9: two pipelines that agree on the generated text but
return different chunks yield the same response. -/
theorem c9_chunks_discarded_witness :
    generate_drools_file (some sample_pipeline) (.ok "form") (.ok "java")
        (fun _ _ _ _ => .ok ("rule A end", [⟨"chunk one", 1⟩]))
        ⟨"make a rule", 15⟩ sample_ts =
      generate_drools_file (some sample_pipeline) (.ok "form") (.ok "java")
        (fun _ _ _ _ => .ok ("rule A end", [⟨"chunk two", 2⟩, ⟨"three", 3⟩]))
        ⟨"make a rule", 15⟩ sample_ts :=
  c9_chunks_discarded.1 (some sample_pipeline) (.ok "form") (.ok "java")
    (fun _ _ _ _ => .ok ("rule A end", [⟨"chunk one", 1⟩]))
    (fun _ _ _ _ => .ok ("rule A end", [⟨"chunk two", 2⟩, ⟨"three", 3⟩]))
    ⟨"make a rule", 15⟩ sample_ts (fun _ _ _ _ => rfl)

/-- C10: `/info`'s load-success test is substring containment, not
equality with the sentinel: `form_loaded` is true exactly when the form
content does not contain `"Form content not found"` anywhere, and
likewise for `java_model_loaded` and `"Java model file not found"`, so
legitimate content containing a sentinel as a substring is reported as
not loaded. -/
theorem c10_sentinel_is_substring_test (p : DroolsRAGPipeline)
    (form_content java_model_content : String) (i : InfoResponse)
    (hrun : get_info (some p) (.ok form_content) (.ok java_model_content) =
      .ok i) :
    (i.form_loaded = true ↔
      hasSubstr form_content "Form content not found" = false) ∧
    (i.java_model_loaded = true ↔
      hasSubstr java_model_content "Java model file not found" = false) := by
  simp only [get_info] at hrun
  injection hrun with h
  subst h
  constructor <;> simp

/-- Witness for C10: a legitimate-looking rule text that merely contains
the sentinel substring is classified as not loaded. -/
theorem c10_sentinel_is_substring_test_witness :
    ((InfoResponse.mk false
        ("rule R when Form content not found then end" : String).length
        true ("public class Model" : String).length true true
        1).form_loaded = true ↔ hasSubstr
        "rule R when Form content not found then end"
        "Form content not found" = false) ∧
    ((InfoResponse.mk false
        ("rule R when Form content not found then end" : String).length
        true ("public class Model" : String).length true true
        1).java_model_loaded = true ↔ hasSubstr "public class Model"
        "Java model file not found" = false) :=
  c10_sentinel_is_substring_test ⟨some (), some ["entry1"]⟩
    "rule R when Form content not found then end" "public class Model"
    ⟨false, ("rule R when Form content not found then end" : String).length,
     true, ("public class Model" : String).length, true, true, 1⟩
    (by decide)

/-- C6: what `create_run_script` actually writes.  Both variants carry
the fixed port 8503 and the final step writes the platform-appropriate
file, marking the POSIX one executable — but the POSIX variant launches
`uvicorn api_main:app`, a module that is not this repository's HTTP
service (`api_drools`), and the Windows variant's activation line is
corrupted by the `\a` escape, so `activate.bat` never appears in it.
This refutes the claim that the written script starts this repository's
HTTP Service. -/
theorem c6_run_script_contents :
    (create_run_script false).name = "run_api.sh" ∧
    (create_run_script false).script_content = posix_script_content ∧
    (create_run_script false).made_executable = true ∧
    hasSubstr posix_script_content "--port 8503" = true ∧
    hasSubstr posix_script_content "source venv/bin/activate" = true ∧
    hasSubstr posix_script_content "uvicorn api_main:app" = true ∧
    hasSubstr posix_script_content api_service_module = false ∧
    (create_run_script true).name = "run_api.bat" ∧
    (create_run_script true).script_content = windows_script_content ∧
    (create_run_script true).made_executable = false ∧
    hasSubstr windows_script_content
      ("uvicorn " ++ api_service_module ++ ":app --host 0.0.0.0 --port 8503") =
      true ∧
    hasSubstr windows_script_content "activate.bat" = false := by
  refine ⟨rfl, rfl, rfl, ?_, ?_, ?_, ?_, rfl, rfl, rfl, ?_, ?_⟩ <;> decide

/-- Counterexample for C7: starting from a fresh machine, a successful
run of the bootstrap leaves every artifact in place, yet the second run
still executes the dependency-install command — step 4 does not skip. -/
theorem c7_second_run_reinstalls :
    (main_exec allOk fs_fresh).2 = .ok ⟨true, true, true, true⟩ ∧
    ((main_exec allOk ⟨true, true, true, true⟩).1.contains
      (.cmd .pipInstall)) = true ∧
    ((main_exec allOk ⟨true, true, true, true⟩).1.contains
      (.cmd .pipUpgrade)) = true := by
  refine ⟨?_, ?_, ?_⟩ <;> decide

/-- C7 amended: after a successful first run from any state, the second
run completes without failing and performs neither the clone nor the
virtual-environment creation (steps 2 and 3 skip, and step 4's
`requirements.txt` write skips), but it does re-run the pip upgrade and
pip install commands and rewrites the launch script. -/
theorem c7_second_run_amended (fs : FS) :
    (main_exec allOk fs).2 = .ok ⟨true, true, true, true⟩ ∧
    (main_exec allOk ⟨true, true, true, true⟩).1 =
      [.cmd .gitVersion, .cmd .pipUpgrade, .cmd .pipInstall, .scriptWrite] ∧
    (main_exec allOk ⟨true, true, true, true⟩).2 =
      .ok ⟨true, true, true, true⟩ := by
  refine ⟨?_, by decide, by decide⟩
  obtain ⟨a, b, c, d⟩ := fs
  cases a <;> cases b <;> cases c <;> cases d <;> decide

/-- On-disk progress only grows: every artifact that existed before a
(partial) run still exists after it — the script never rolls back. -/
def fsLe (a b : FS) : Prop :=
  (a.project_dir_exists = true → b.project_dir_exists = true) ∧
  (a.venv_exists = true → b.venv_exists = true) ∧
  (a.requirements_exists = true → b.requirements_exists = true) ∧
  (a.env_file_exists = true → b.env_file_exists = true)

theorem fsLe_refl (a : FS) : fsLe a a := ⟨id, id, id, id⟩

theorem fsLe_trans {a b c : FS} (h1 : fsLe a b) (h2 : fsLe b c) :
    fsLe a c :=
  ⟨fun h => h2.1 (h1.1 h), fun h => h2.2.1 (h1.2.1 h),
   fun h => h2.2.2.1 (h1.2.2.1 h), fun h => h2.2.2.2 (h1.2.2.2 h)⟩

/-- Shape of a `sys.exit` produced by a failed external command: exit
status 1, the printed `CalledProcessError` text of the failing command,
the failing command last in the trace with everything before it having
succeeded, and no rollback of the file system. -/
def ExitShape (σ : Cmd → Option Nat) (fs : FS) (t : List Eff)
    (e : ScriptExit) : Prop :=
  e.code = 1 ∧
  (∃ t0 c rc, t = t0 ++ [Eff.cmd c] ∧ σ c = some rc ∧
    e.msg = "Error: " ++ cmdFailureText c rc ∧
    ∀ c0, Eff.cmd c0 ∈ t0 → σ c0 = none) ∧
  fsLe fs e.fs

/-- A script fragment is well-behaved under oracle `σ` when it exits
with `ExitShape` on failure, and on success grows the file system
monotonically having run only succeeding commands. -/
def StepOk (σ : Cmd → Option Nat)
    (step : FS → List Eff × Except ScriptExit FS) : Prop :=
  ∀ fs t r, step fs = (t, r) →
    (∀ e, r = .error e → ExitShape σ fs t e) ∧
    (∀ fs1, r = .ok fs1 →
      fsLe fs fs1 ∧ ∀ c0, Eff.cmd c0 ∈ t → σ c0 = none)

/-- Sequencing preserves `StepOk`. -/
theorem seqStep_ok {σ : Cmd → Option Nat}
    {a b : FS → List Eff × Except ScriptExit FS}
    (ha : StepOk σ a) (hb : StepOk σ b) : StepOk σ (seqStep a b) := by
  intro fs t r h
  unfold seqStep at h
  cases hA : a fs with
  | mk t1 r1 =>
    rw [hA] at h
    cases r1 with
    | error e1 =>
      dsimp only at h
      injection h with h1 h2
      subst h1
      subst h2
      constructor
      · intro e he
        cases he
        exact (ha fs _ _ hA).1 _ rfl
      · intro fs1 hok
        exact Except.noConfusion hok
    | ok fs1 =>
      dsimp only at h
      cases hB : b fs1 with
      | mk t2 r2 =>
        rw [hB] at h
        dsimp only at h
        injection h with h1 h2
        subst h1
        subst h2
        have hA_ok := (ha fs _ _ hA).2 fs1 rfl
        have Hb := hb fs1 _ _ hB
        constructor
        · intro e he
          obtain ⟨hc, ⟨t0, c, rc, ht, hσ, hmsg, hpre⟩, hle⟩ := Hb.1 e he
          refine ⟨hc, ⟨t1 ++ t0, c, rc, ?_, hσ, hmsg, ?_⟩,
            fsLe_trans hA_ok.1 hle⟩
          · rw [ht, List.append_assoc]
          · intro c0 hc0
            rcases List.mem_append.mp hc0 with hm | hm
            · exact hA_ok.2 c0 hm
            · exact hpre c0 hm
        · intro fs2 hok
          have hB_ok := Hb.2 fs2 hok
          refine ⟨fsLe_trans hA_ok.1 hB_ok.1, ?_⟩
          intro c0 hc0
          rcases List.mem_append.mp hc0 with hm | hm
          · exact hA_ok.2 c0 hm
          · exact hB_ok.2 c0 hm

/-- The git availability check is well-behaved. -/
theorem check_git_ok (σ : Cmd → Option Nat) : StepOk σ (check_git σ) := by
  intro fs t r h
  unfold check_git run_command at h
  cases hσ : σ .gitVersion with
  | none =>
    rw [hσ] at h
    dsimp only at h
    injection h with h1 h2
    subst h1
    subst h2
    constructor
    · intro e he
      exact Except.noConfusion he
    · intro fs1 hok
      cases hok
      refine ⟨fsLe_refl fs, ?_⟩
      intro c0 hc0
      rcases List.mem_singleton.mp hc0 with h
      injection h with hcc
      subst hcc
      exact hσ
  | some rc =>
    rw [hσ] at h
    dsimp only at h
    injection h with h1 h2
    subst h1
    subst h2
    constructor
    · intro e he
      cases he
      exact ⟨rfl, ⟨[], .gitVersion, rc, rfl, hσ, rfl, by intro c0 hc0; cases hc0⟩,
        fsLe_refl fs⟩
    · intro fs1 hok
      exact Except.noConfusion hok

/-- The clone step is well-behaved: it either skips or runs `git clone`
and records the new directory. -/
theorem clone_repository_ok (σ : Cmd → Option Nat) :
    StepOk σ (clone_repository σ) := by
  intro fs t r h
  unfold clone_repository run_command at h
  cases hp : fs.project_dir_exists with
  | true =>
    rw [hp, if_pos rfl] at h
    injection h with h1 h2
    subst h1
    subst h2
    constructor
    · intro e he
      exact Except.noConfusion he
    · intro fs1 hok
      cases hok
      exact ⟨fsLe_refl fs, by intro c0 hc0; cases hc0⟩
  | false =>
    rw [hp, if_neg Bool.false_ne_true] at h
    cases hσ : σ .gitClone with
    | none =>
      rw [hσ] at h
      dsimp only at h
      injection h with h1 h2
      subst h1
      subst h2
      constructor
      · intro e he
        exact Except.noConfusion he
      · intro fs1 hok
        cases hok
        refine ⟨⟨fun _ => rfl, id, id, id⟩, ?_⟩
        intro c0 hc0
        rcases List.mem_singleton.mp hc0 with h
        injection h with hcc
        subst hcc
        exact hσ
    | some rc =>
      rw [hσ] at h
      dsimp only at h
      injection h with h1 h2
      subst h1
      subst h2
      constructor
      · intro e he
        cases he
        exact ⟨rfl, ⟨[], .gitClone, rc, rfl, hσ, rfl,
          by intro c0 hc0; cases hc0⟩, fsLe_refl fs⟩
      · intro fs1 hok
        exact Except.noConfusion hok

/-- The virtual-environment step is well-behaved: no external command,
monotone state. -/
theorem create_virtual_environment_ok (σ : Cmd → Option Nat) :
    StepOk σ create_virtual_environment := by
  intro fs t r h
  unfold create_virtual_environment at h
  cases hv : fs.venv_exists with
  | true =>
    rw [hv, if_pos rfl] at h
    injection h with h1 h2
    subst h1
    subst h2
    constructor
    · intro e he
      exact Except.noConfusion he
    · intro fs1 hok
      cases hok
      exact ⟨fsLe_refl fs, by intro c0 hc0; cases hc0⟩
  | false =>
    rw [hv, if_neg Bool.false_ne_true] at h
    injection h with h1 h2
    subst h1
    subst h2
    constructor
    · intro e he
      exact Except.noConfusion he
    · intro fs1 hok
      cases hok
      refine ⟨⟨id, fun _ => rfl, id, id⟩, ?_⟩
      intro c0 hc0
      rcases List.mem_singleton.mp hc0 with h
      cases h

/-- The `.env` step is well-behaved: no external command, monotone
state. -/
theorem create_env_file_ok (σ : Cmd → Option Nat) :
    StepOk σ create_env_file := by
  intro fs t r h
  unfold create_env_file at h
  cases hv : fs.env_file_exists with
  | true =>
    rw [hv, if_pos rfl] at h
    injection h with h1 h2
    subst h1
    subst h2
    constructor
    · intro e he
      exact Except.noConfusion he
    · intro fs1 hok
      cases hok
      exact ⟨fsLe_refl fs, by intro c0 hc0; cases hc0⟩
  | false =>
    rw [hv, if_neg Bool.false_ne_true] at h
    injection h with h1 h2
    subst h1
    subst h2
    constructor
    · intro e he
      exact Except.noConfusion he
    · intro fs1 hok
      cases hok
      refine ⟨⟨id, id, id, fun _ => rfl⟩, ?_⟩
      intro c0 hc0
      rcases List.mem_singleton.mp hc0 with h
      cases h

/-- The launch-script step is well-behaved: it only writes a file. -/
theorem create_run_script_step_ok (σ : Cmd → Option Nat) :
    StepOk σ create_run_script_step := by
  intro fs t r h
  unfold create_run_script_step at h
  injection h with h1 h2
  subst h1
  subst h2
  constructor
  · intro e he
    exact Except.noConfusion he
  · intro fs1 hok
    cases hok
    refine ⟨fsLe_refl fs, ?_⟩
    intro c0 hc0
    rcases List.mem_singleton.mp hc0 with h
    cases h

/-- The install step is well-behaved: it may write `requirements.txt`,
then runs the two pip commands, exiting at the first failure. -/
theorem install_requirements_ok (σ : Cmd → Option Nat) :
    StepOk σ (install_requirements σ) := by
  intro fs t r h
  unfold install_requirements run_command at h
  cases hreq : fs.requirements_exists with
  | true =>
    rw [hreq, if_pos rfl] at h
    dsimp only at h
    cases hσ1 : σ .pipUpgrade with
    | some rc1 =>
      rw [hσ1] at h
      dsimp only at h
      injection h with h1 h2
      subst h1
      subst h2
      constructor
      · intro e he
        cases he
        exact ⟨rfl, ⟨[], .pipUpgrade, rc1, rfl, hσ1, rfl,
          by intro c0 hc0; cases hc0⟩, fsLe_refl fs⟩
      · intro fs1 hok
        exact Except.noConfusion hok
    | none =>
      rw [hσ1] at h
      dsimp only at h
      cases hσ2 : σ .pipInstall with
      | some rc2 =>
        rw [hσ2] at h
        dsimp only at h
        injection h with h1 h2
        subst h1
        subst h2
        constructor
        · intro e he
          cases he
          refine ⟨rfl, ⟨[Eff.cmd .pipUpgrade], .pipInstall, rc2, rfl, hσ2,
            rfl, ?_⟩, fsLe_refl fs⟩
          intro c0 hc0
          rcases List.mem_singleton.mp hc0 with hcc
          injection hcc with hcc2
          subst hcc2
          exact hσ1
        · intro fs1 hok
          exact Except.noConfusion hok
      | none =>
        rw [hσ2] at h
        dsimp only at h
        injection h with h1 h2
        subst h1
        subst h2
        constructor
        · intro e he
          exact Except.noConfusion he
        · intro fs1 hok
          cases hok
          refine ⟨fsLe_refl fs, ?_⟩
          intro c0 hc0
          simp only [List.nil_append, List.cons_append, List.mem_cons,
            List.not_mem_nil, or_false] at hc0
          rcases hc0 with hcc | hcc
          · injection hcc with hcc2
            subst hcc2
            exact hσ1
          · injection hcc with hcc2
            subst hcc2
            exact hσ2
  | false =>
    rw [hreq, if_neg Bool.false_ne_true] at h
    dsimp only at h
    cases hσ1 : σ .pipUpgrade with
    | some rc1 =>
      rw [hσ1] at h
      dsimp only at h
      injection h with h1 h2
      subst h1
      subst h2
      constructor
      · intro e he
        cases he
        refine ⟨rfl, ⟨[Eff.reqWrite], .pipUpgrade, rc1, rfl, hσ1, rfl, ?_⟩,
          ⟨id, id, fun _ => rfl, id⟩⟩
        intro c0 hc0
        rcases List.mem_singleton.mp hc0 with hcc
        cases hcc
      · intro fs1 hok
        exact Except.noConfusion hok
    | none =>
      rw [hσ1] at h
      dsimp only at h
      cases hσ2 : σ .pipInstall with
      | some rc2 =>
        rw [hσ2] at h
        dsimp only at h
        injection h with h1 h2
        subst h1
        subst h2
        constructor
        · intro e he
          cases he
          refine ⟨rfl, ⟨[Eff.reqWrite, Eff.cmd .pipUpgrade], .pipInstall,
            rc2, rfl, hσ2, rfl, ?_⟩, ⟨id, id, fun _ => rfl, id⟩⟩
          intro c0 hc0
          simp only [List.nil_append, List.cons_append, List.mem_cons,
            List.not_mem_nil, or_false] at hc0
          rcases hc0 with hcc | hcc
          · cases hcc
          · injection hcc with hcc2
            subst hcc2
            exact hσ1
        · intro fs1 hok
          exact Except.noConfusion hok
      | none =>
        rw [hσ2] at h
        dsimp only at h
        injection h with h1 h2
        subst h1
        subst h2
        constructor
        · intro e he
          exact Except.noConfusion he
        · intro fs1 hok
          cases hok
          refine ⟨⟨id, id, fun _ => rfl, id⟩, ?_⟩
          intro c0 hc0
          simp only [List.nil_append, List.cons_append, List.mem_cons,
            List.not_mem_nil, or_false] at hc0
          rcases hc0 with hcc | hcc | hcc
          · cases hcc
          · injection hcc with hcc2
            subst hcc2
            exact hσ1
          · injection hcc with hcc2
            subst hcc2
            exact hσ2

/-- The whole bootstrap `main` is well-behaved under any oracle. -/
theorem main_exec_ok (σ : Cmd → Option Nat) : StepOk σ (main_exec σ) :=
  seqStep_ok (check_git_ok σ)
    (seqStep_ok (clone_repository_ok σ)
      (seqStep_ok (create_virtual_environment_ok σ)
        (seqStep_ok (install_requirements_ok σ)
          (seqStep_ok (create_env_file_ok σ) (create_run_script_step_ok σ)))))

/-- C8: whenever a run of the bootstrap script ends in an exit rather
than completion, some external command failed; the script exits with
status 1 printing that command's `CalledProcessError` text, the failing
command is the last effect performed (no further steps run), every
command before it succeeded, and nothing already created is rolled
back. -/
theorem c8_command_failure_aborts (σ : Cmd → Option Nat) (fs : FS)
    (t : List Eff) (e : ScriptExit)
    (h : main_exec σ fs = (t, .error e)) :
    e.code = 1 ∧
    (∃ t0 c rc, t = t0 ++ [Eff.cmd c] ∧ σ c = some rc ∧
      e.msg = "Error: " ++ cmdFailureText c rc ∧
      ∀ c0, Eff.cmd c0 ∈ t0 → σ c0 = none) ∧
    fsLe fs e.fs :=
  (main_exec_ok σ fs t (.error e) h).1 e rfl

/-- The oracle where only the dependency-install command fails (with
exit status 2). -/
def failing_pip_install : Cmd → Option Nat
  | .pipInstall => some 2
  | _ => none

/-- Witness for C8: on a fresh machine with pip install failing, the
script stops right after the install command with exit code 1, the
clone/venv/requirements artifacts already created stay on disk, and the
`.env` and launch-script steps never run. -/
theorem c8_command_failure_aborts_witness :
    (ScriptExit.mk 1 ("Error: " ++ cmdFailureText .pipInstall 2)
      ⟨true, true, true, false⟩).code = 1 ∧
    (∃ t0 c rc,
      ([Eff.cmd .gitVersion, Eff.cmd .gitClone, Eff.venvCreate, Eff.reqWrite,
        Eff.cmd .pipUpgrade, Eff.cmd .pipInstall] : List Eff) =
        t0 ++ [Eff.cmd c] ∧
      failing_pip_install c = some rc ∧
      (ScriptExit.mk 1 ("Error: " ++ cmdFailureText .pipInstall 2)
        ⟨true, true, true, false⟩).msg =
        "Error: " ++ cmdFailureText c rc ∧
      ∀ c0, Eff.cmd c0 ∈ t0 → failing_pip_install c0 = none) ∧
    fsLe fs_fresh
      (ScriptExit.mk 1 ("Error: " ++ cmdFailureText .pipInstall 2)
        ⟨true, true, true, false⟩).fs :=
  c8_command_failure_aborts failing_pip_install fs_fresh
    [Eff.cmd .gitVersion, Eff.cmd .gitClone, Eff.venvCreate, Eff.reqWrite,
     Eff.cmd .pipUpgrade, Eff.cmd .pipInstall]
    ⟨1, "Error: " ++ cmdFailureText .pipInstall 2, ⟨true, true, true, false⟩⟩
    (by decide)
